import Mathlib

/-!
Verification development for the zypin-core repository.

The shallow embedding below translates the two core subsystems of the
repository into Lean:

* the Process Supervisor (`src/core/process-manager.js`, class
  `ProcessManager`): an in-memory table of supervised processes keyed by
  package name, persisted to a state file, with operations `startPackage`
  and `cleanup`;
* the Plugin Registry (`src/core/plugin-loader.js`, class `PluginLoader`,
  and the `TemplateScanner` class of `src/core/package-loader.js`):
  discovery, validation and cataloging of plugin candidates and their
  templates;
* the Status Service probe (`ZypinServer.status` in `src/core/config.js`).

JavaScript `Map` objects are embedded as association lists with
`Map.get` / `Map.set` / `Map.delete` semantics (`mapLookup`, `mapSet`,
`mapDelete`).  Side effects of the supervisor (liveness probes via
`process.kill(pid, 0)`, termination signals, state-file writes, and
invocations of a provider's `start` operation) are made observable as an
explicit list of `Effect` values returned alongside the new state.  OS
liveness is an oracle `alive : Nat → Bool` (the outcome of
`process.kill(pid, 0)`); the clock is a parameter `now` standing for
`new Date().toISOString()`.  Fallible external calls (a provider's
`start`, a `fetch`, a metadata parse) are embedded as `Except` values
supplied as data, mirroring the fact that the JavaScript code catches
every rejection of those calls.
-/

namespace Zypin

/-- JavaScript `Map.get`: first (and, for a real `Map`, only) binding
of the key. -/
def mapLookup {α : Type} (m : List (String × α)) (k : String) : Option α :=
  match m with
  | [] => none
  | p :: rest => if p.1 = k then some p.2 else mapLookup rest k

/-- JavaScript `Map.set`: update the binding in place when the key is
present, append a fresh binding at the end otherwise. -/
def mapSet {α : Type} (m : List (String × α)) (k : String) (v : α) :
    List (String × α) :=
  match m with
  | [] => [(k, v)]
  | p :: rest => if p.1 = k then (k, v) :: rest else p :: mapSet rest k v

/-- JavaScript `Map.delete`: remove the binding of the key. -/
def mapDelete {α : Type} (m : List (String × α)) (k : String) :
    List (String × α) :=
  m.filter (fun p => decide (p.1 ≠ k))

/-- Number of bindings of a key in an association list (for a real `Map`
this is 0 or 1). -/
def countKey {α : Type} (m : List (String × α)) (k : String) : Nat :=
  (m.filter (fun p => decide (p.1 = k))).length

/-- `src/core/process-manager.js`, `startPackage` lines 106-110: the
record stored per supervised process — only name, pid and the ISO start
timestamp (the process object itself is deliberately not retained). -/
structure ProcRec where
  name : String
  pid : Nat
  startTime : String
deriving DecidableEq, Repr

/-- The supervisor's state: the in-memory `Map` (`this.processes`) and
the content of the persisted state file (`.zypin-processes.json`). -/
structure PMState where
  processes : List (String × ProcRec)
  fileState : List (String × ProcRec)
deriving DecidableEq, Repr

/-- Observable side effects of the supervisor:
`probe pid` is `process.kill(pid, 0)` (non-destructive existence check),
`sigterm pid` is `process.kill(pid, 'SIGTERM')`,
`write t` is `saveState` writing table `t` to the state file,
`startInvoked` is a call of `plugin.interface.start`. -/
inductive Effect where
  | probe (pid : Nat)
  | sigterm (pid : Nat)
  | write (table : List (String × ProcRec))
  | startInvoked
deriving DecidableEq, Repr

/-- A provider handle as `startPackage` consumes it: the `hasStart`
capability flag computed by the plugin loader, and the outcome of
awaiting `plugin.interface.start(this, {})` — a rejection, or a resolved
value whose `pid` field is either absent/falsy (`none` or `some 0`) or a
usable process id. -/
structure Plugin where
  hasStart : Bool
  startResult : Except String (Option Nat)
deriving Repr

/-- `src/core/process-manager.js` lines 93-123: the part of
`startPackage` after the already-running check — capability gate, spawn,
and on success insertion of the new `ProcRec` plus persistence. -/
def startSpawn (now : String) (s : PMState) (packageName : String)
    (plugin : Plugin) : Bool × PMState × List Effect :=
  if plugin.hasStart = false then
    (false, s, [])
  else
    match plugin.startResult with
    | .error _ => (false, s, [Effect.startInvoked])
    | .ok res =>
      match res with
      | some pid =>
        if pid ≠ 0 then
          let processInfo : ProcRec := ⟨packageName, pid, now⟩
          let procs := mapSet s.processes packageName processInfo
          (true, ⟨procs, procs⟩, [Effect.startInvoked, Effect.write procs])
        else
          (false, s, [Effect.startInvoked])
      | none => (false, s, [Effect.startInvoked])

/-- `src/core/process-manager.js` lines 77-124, `startPackage`: if a
record for the name exists, probe its pid; refuse when it is alive,
purge the stale record and persist the purge when it is dead; then
proceed to the capability check and spawn. -/
def startPackage (alive : Nat → Bool) (now : String) (s : PMState)
    (packageName : String) (plugin : Plugin) : Bool × PMState × List Effect :=
  match mapLookup s.processes packageName with
  | some proc =>
    if alive proc.pid then
      (false, s, [Effect.probe proc.pid])
    else
      let purged := mapDelete s.processes packageName
      let r := startSpawn now ⟨purged, purged⟩ packageName plugin
      (r.1, r.2.1, Effect.probe proc.pid :: Effect.write purged :: r.2.2)
  | none => startSpawn now s packageName plugin

/-- `src/core/process-manager.js` lines 63-75, `killProcessByPid`
(effects only): probe the pid; when alive, also send SIGTERM. -/
def killEffects (alive : Nat → Bool) (pid : Nat) : List Effect :=
  if alive pid then [Effect.probe pid, Effect.sigterm pid]
  else [Effect.probe pid]

/-- `src/core/process-manager.js` lines 135-151, `cleanup`: when the
table is non-empty, attempt termination of every tracked pid, clear the
table and persist the empty table; when it is empty, do nothing at
all. -/
def cleanup (alive : Nat → Bool) (s : PMState) : PMState × List Effect :=
  if s.processes.length > 0 then
    let effs := s.processes.foldl
      (fun acc p => acc ++ killEffects alive p.2.pid) []
    (⟨[], []⟩, effs ++ [Effect.write []])
  else
    (s, [])

/-- `src/core/process-manager.js` lines 48-55, `saveState`: the content
written to the state file is `Object.fromEntries(this.processes)` — the
current table. -/
def saveStateFile (s : PMState) : List (String × ProcRec) :=
  s.processes

/-- `src/core/process-manager.js` lines 34-46, `loadState`, as run by a
fresh `ProcessManager` (constructor starts from an empty `Map`): every
entry of the persisted object is `set` into the table in order. -/
def loadState (file : List (String × ProcRec)) : List (String × ProcRec) :=
  file.foldl (fun m p => mapSet m p.1 p.2) []

/-- The interface exported by a plugin's `index.js` as the loader
inspects it (`src/core/plugin-loader.js` lines 60-79): `name` and
`version` fields (an absent field is the empty string, matching
JavaScript falsiness of `undefined` and `''`), one flag per operation
recording `typeof iface.op === 'function'`, and the declared template
list (`iface.templates || []`). -/
structure PluginInterface where
  name : String
  version : String
  hasStartFn : Bool
  hasRunFn : Bool
  hasHealthFn : Bool
  templates : List String
deriving DecidableEq, Repr

/-- One discovery candidate: a subdirectory of a plugin root
(`src/core/plugin-loader.js` lines 51-60).  `hasIndex` is
`fs.existsSync(indexPath)`; `loadResult` is the outcome of
`require(indexPath)` — a thrown error or the exported interface. -/
structure PluginCandidate where
  dirName : String
  hasIndex : Bool
  loadResult : Except String PluginInterface
deriving Repr

/-- The catalog record built for a validated plugin
(`src/core/plugin-loader.js` lines 70-79). -/
structure PluginInfo where
  name : String
  fullName : String
  interface : PluginInterface
  hasStart : Bool
  hasRun : Bool
  hasHealth : Bool
  templates : List String
deriving DecidableEq, Repr

/-- `String.prototype.replace` with a string pattern and empty
replacement: remove the first occurrence of the pattern (used to strip
the `@zypin/` namespace from a directory name,
`src/core/plugin-loader.js` line 68). -/
def replaceFirst (s pat : String) : String :=
  match s.splitOn pat with
  | [] => s
  | [x] => x
  | x :: rest => x ++ String.intercalate pat rest

/-- `src/core/plugin-loader.js` lines 87-105, `validatePluginInterface`:
require truthy `name` and `version`, then at least one of the three
operations to be a function. -/
def validatePluginInterface (i : PluginInterface) : Bool :=
  if i.name = "" || i.version = "" then false
  else i.hasStartFn || i.hasRunFn || i.hasHealthFn

/-- `src/core/plugin-loader.js` lines 51-85, `loadPlugin`: skip a
candidate without `index.js`, a candidate whose `require` throws, and a
candidate failing validation; otherwise register it in the catalog under
its namespace-stripped logical name. -/
def loadPlugin (plugins : List (String × PluginInfo)) (c : PluginCandidate) :
    List (String × PluginInfo) :=
  if c.hasIndex = false then
    plugins
  else
    match c.loadResult with
    | .error _ => plugins
    | .ok iface =>
      if validatePluginInterface iface = false then
        plugins
      else
        let packageName := replaceFirst c.dirName "@zypin/"
        mapSet plugins packageName
          ⟨packageName, c.dirName, iface,
           iface.hasStartFn, iface.hasRunFn, iface.hasHealthFn,
           iface.templates⟩

/-- One configured plugin root (`config.pluginPaths` entry):
`rootExists` is `fs.existsSync(pluginPath)`, `readdirOk` whether
`fs.readdirSync` succeeds, and `candidates` the enumerated
subdirectories (`src/core/plugin-loader.js` lines 36-49). -/
structure PluginRoot where
  rootExists : Bool
  readdirOk : Bool
  candidates : List PluginCandidate
deriving Repr

/-- `src/core/plugin-loader.js` lines 36-49, `scanPluginPath`: a readdir
failure is silently ignored; otherwise every candidate is loaded in
order. -/
def scanPluginPath (plugins : List (String × PluginInfo)) (root : PluginRoot) :
    List (String × PluginInfo) :=
  if root.readdirOk = false then plugins
  else root.candidates.foldl loadPlugin plugins

/-- `src/core/plugin-loader.js` lines 23-34, `loadPlugins`: scan every
configured root that exists, starting from an empty catalog. -/
def loadPlugins (roots : List PluginRoot) : List (String × PluginInfo) :=
  roots.foldl
    (fun m r => if r.rootExists then scanPluginPath m r else m) []

/-- Template metadata as parsed from `package.json`
(`src/core/package-loader.js` lines 127-137): only the `description`
field matters downstream; an object without one is `none`. -/
structure Metadata where
  description : Option String
deriving DecidableEq, Repr

/-- One template candidate: a subdirectory of a plugin's `templates`
directory.  `hasPackageJson` and `hasRunnerFile` are the two
`fs.existsSync` checks; `parseResult` is the outcome of
`JSON.parse(fs.readFileSync(packageJsonPath))`. -/
structure TemplateCandidate where
  name : String
  hasPackageJson : Bool
  parseResult : Except String Metadata
  hasRunnerFile : Bool
deriving Repr

/-- The catalog record built for a validated template
(`src/core/package-loader.js` lines 139-147). -/
structure TemplateInfo where
  name : String
  plugin : String
  namespacedName : String
  metadata : Metadata
  hasRunner : Bool
  description : String
deriving DecidableEq, Repr

/-- `src/core/package-loader.js` lines 155-170, `validateTemplate`:
require `package.json` to exist, then `runner.js` to exist. -/
def validateTemplate (c : TemplateCandidate) : Bool :=
  if c.hasPackageJson = false then false
  else c.hasRunnerFile

/-- `metadata.description || generated default`: JavaScript falsiness
makes both an absent and an empty description fall back to the
generated string (`src/core/package-loader.js` line 146). -/
def descOrDefault (m : Metadata) (pluginName templateName : String) : String :=
  match m.description with
  | some d => if d = "" then pluginName ++ " " ++ templateName ++ " template" else d
  | none => pluginName ++ " " ++ templateName ++ " template"

/-- `src/core/package-loader.js` lines 118-153, `loadTemplate`: skip a
candidate failing validation; otherwise parse metadata (a parse failure
defaults to the empty object) and register the record under its
namespaced name. -/
def loadTemplate (templates : List (String × TemplateInfo))
    (pluginName : String) (c : TemplateCandidate) :
    List (String × TemplateInfo) :=
  if validateTemplate c = false then
    templates
  else
    let namespacedName := pluginName ++ "/" ++ c.name
    let metadata :=
      if c.hasPackageJson then
        match c.parseResult with
        | .ok m => m
        | .error _ => ⟨none⟩
      else ⟨none⟩
    mapSet templates namespacedName
      ⟨c.name, pluginName, namespacedName, metadata, c.hasRunnerFile,
       descOrDefault metadata pluginName c.name⟩

/-- A plugin's `templates` directory as the scanner sees it
(`src/core/package-loader.js` lines 97-116): existence of the
directory, success of `readdirSync`, the enumerated candidates. -/
structure TemplatesDir where
  dirExists : Bool
  readdirOk : Bool
  candidates : List TemplateCandidate
deriving Repr

/-- `src/core/package-loader.js` lines 97-116, `scanPluginTemplates`: a
plugin without a `templates` directory contributes nothing; a readdir
failure is caught and logged; otherwise every candidate is loaded. -/
def scanPluginTemplates (templates : List (String × TemplateInfo))
    (pluginName : String) (d : TemplatesDir) :
    List (String × TemplateInfo) :=
  if d.dirExists = false then templates
  else if d.readdirOk = false then templates
  else d.candidates.foldl (fun m c => loadTemplate m pluginName c) templates

/-- `src/core/package-loader.js` lines 85-95, `scanTemplates`: scan the
templates of every discovered plugin, starting from an empty catalog. -/
def scanTemplates (plugins : List (String × TemplatesDir)) :
    List (String × TemplateInfo) :=
  plugins.foldl (fun m p => scanPluginTemplates m p.1 p.2) []

/-- A fetch response as `ZypinServer.status` consumes it: only the
status code matters (`response.ok` and `response.status`). -/
structure HttpResponse where
  status : Nat
deriving DecidableEq, Repr

/-- The WHATWG fetch `Response.ok` flag: status in the 2xx range. -/
def respOk (r : HttpResponse) : Bool :=
  decide (200 ≤ r.status) && decide (r.status < 300)

/-- The object returned by `ZypinServer.status`
(`src/core/config.js` lines 163-173): on a response,
`isRunning = response.ok` with the status code; on a network failure,
`isRunning = false` with the error message. -/
structure StatusResult where
  isRunning : Bool
  url : String
  status : Option Nat
  error : Option String
deriving DecidableEq, Repr

/-- `src/core/config.js` lines 157-175, `ZypinServer.status`: await the
fetch of `url/api/health`; any rejection is caught and mapped to a
non-running result carrying the error message. -/
def serverStatus (url : String) (fetchResult : Except String HttpResponse) :
    StatusResult :=
  match fetchResult with
  | .ok r => ⟨respOk r, url, some r.status, none⟩
  | .error e => ⟨false, url, none, some e⟩

/-! ### Association-list lemmas -/

theorem mapLookup_mapSet_self {α : Type} (m : List (String × α)) (k : String)
    (v : α) : mapLookup (mapSet m k v) k = some v := by
  induction m with
  | nil => simp [mapSet, mapLookup]
  | cons p rest ih =>
    by_cases h : p.1 = k
    · simp [mapSet, mapLookup, h]
    · simp [mapSet, mapLookup, h, ih]

theorem mapLookup_mapDelete_self {α : Type} (m : List (String × α))
    (k : String) : mapLookup (mapDelete m k) k = none := by
  induction m with
  | nil => simp [mapDelete, mapLookup]
  | cons p rest ih =>
    by_cases h : p.1 = k
    · simpa [mapDelete, List.filter, h] using ih
    · simpa [mapDelete, List.filter, h, mapLookup] using ih

theorem mapSet_of_lookup_none {α : Type} (m : List (String × α))
    (k : String) (v : α) (h : mapLookup m k = none) :
    mapSet m k v = m ++ [(k, v)] := by
  induction m with
  | nil => simp [mapSet]
  | cons p rest ih =>
    by_cases hp : p.1 = k
    · simp [mapLookup, hp] at h
    · simp [mapLookup, hp] at h
      simp [mapSet, hp, ih h]

theorem countKey_eq_zero_of_lookup_none {α : Type} (m : List (String × α))
    (k : String) (h : mapLookup m k = none) : countKey m k = 0 := by
  induction m with
  | nil => simp [countKey]
  | cons p rest ih =>
    by_cases hp : p.1 = k
    · simp [mapLookup, hp] at h
    · simp [mapLookup, hp] at h
      simpa [countKey, List.filter, hp] using ih h

theorem countKey_append {α : Type} (m₁ m₂ : List (String × α)) (k : String) :
    countKey (m₁ ++ m₂) k = countKey m₁ k + countKey m₂ k := by
  simp [countKey, List.filter_append]

theorem mapLookup_append_of_none {α : Type} (m₁ m₂ : List (String × α))
    (k : String) (h : mapLookup m₁ k = none) :
    mapLookup (m₁ ++ m₂) k = mapLookup m₂ k := by
  induction m₁ with
  | nil => simp
  | cons p rest ih =>
    by_cases hp : p.1 = k
    · simp [mapLookup, hp] at h
    · simp [mapLookup, hp] at h
      simpa [mapLookup, hp] using ih h

theorem mem_mapSet {α : Type} (m : List (String × α)) (k : String) (v : α)
    (x : String × α) (hx : x ∈ mapSet m k v) : x ∈ m ∨ x = (k, v) := by
  induction m with
  | nil => simpa [mapSet] using hx
  | cons p rest ih =>
    by_cases hp : p.1 = k
    · simp [mapSet, hp] at hx
      rcases hx with h | h
      · right; simpa using h
      · left; simp [h]
    · simp [mapSet, hp] at hx
      rcases hx with h | h
      · left; simp [h]
      · rcases ih h with h2 | h2
        · left; simp [h2]
        · right; exact h2

theorem foldl_mapSet_fresh {α : Type} (l : List (String × α)) :
    ∀ m : List (String × α),
      (l.map Prod.fst).Nodup →
      (∀ p ∈ l, mapLookup m p.1 = none) →
      l.foldl (fun acc p => mapSet acc p.1 p.2) m = m ++ l := by
  induction l with
  | nil => intro m _ _; simp
  | cons q t ih =>
    intro m hnd hfresh
    have hq : mapLookup m q.1 = none := hfresh q (by simp)
    have hstep : mapSet m q.1 q.2 = m ++ [q] := by
      simpa using mapSet_of_lookup_none m q.1 q.2 hq
    have hnd' : (t.map Prod.fst).Nodup := (List.nodup_cons.mp hnd).2
    have hq' : q.1 ∉ t.map Prod.fst := (List.nodup_cons.mp hnd).1
    have hfresh' : ∀ p ∈ t, mapLookup (m ++ [q]) p.1 = none := by
      intro p hp
      have h1 : mapLookup m p.1 = none := hfresh p (by simp [hp])
      have h2 : q.1 ≠ p.1 := by
        intro he
        exact hq' (he ▸ List.mem_map_of_mem Prod.fst hp)
      rw [mapLookup_append_of_none m [q] p.1 h1]
      simp [mapLookup, h2]
    calc (q :: t).foldl (fun acc p => mapSet acc p.1 p.2) m
        = t.foldl (fun acc p => mapSet acc p.1 p.2) (m ++ [q]) := by
          simp [List.foldl_cons, hstep]
      _ = (m ++ [q]) ++ t := ih (m ++ [q]) hnd' hfresh'
      _ = m ++ q :: t := by simp

/-! ### Helper lemmas about the spawn phase -/

theorem startSpawn_fst_false (now : String) (s : PMState)
    (packageName : String) (plugin : Plugin)
    (hfail : plugin.hasStart = false ∨
      (∃ e, plugin.startResult = Except.error e) ∨
      plugin.startResult = Except.ok none ∨
      plugin.startResult = Except.ok (some 0)) :
    (startSpawn now s packageName plugin).1 = false := by
  unfold startSpawn
  rcases hfail with h | ⟨e, h⟩ | h | h
  · simp [h]
  · by_cases hs : plugin.hasStart = false
    · simp [hs]
    · simp [hs, h]
  · by_cases hs : plugin.hasStart = false
    · simp [hs]
    · simp [hs, h]
  · by_cases hs : plugin.hasStart = false
    · simp [hs]
    · simp [hs, h]

theorem startInvoked_mem_startSpawn (now : String) (s : PMState)
    (packageName : String) (plugin : Plugin)
    (hs : plugin.hasStart = true) :
    Effect.startInvoked ∈ (startSpawn now s packageName plugin).2.2 := by
  unfold startSpawn
  rw [hs]
  cases hr : plugin.startResult with
  | error e => simp
  | ok res =>
    cases res with
    | none => simp
    | some pid =>
      by_cases hp : pid = 0
      · simp [hp]
      · simp [hp]

/-! ### Claim theorems for the Process Supervisor -/

/-- C1: when the supervisor's table already holds a record for the
package name, `startPackage` probes the recorded pid; if it is still
alive the call returns false and never invokes the provider's start
operation; if it is dead the stale record is deleted and the deletion
persisted (the `write` of the purged table), and only then does the call
proceed to the capability check and spawn phase (`startSpawn`) on the
purged state. -/
theorem startPackage_existing_record (alive : Nat → Bool) (now : String)
    (s : PMState) (packageName : String) (plugin : Plugin) (proc : ProcRec)
    (hmem : mapLookup s.processes packageName = some proc) :
    (alive proc.pid = true →
      (startPackage alive now s packageName plugin).1 = false ∧
      Effect.startInvoked ∉ (startPackage alive now s packageName plugin).2.2) ∧
    (alive proc.pid = false →
      startPackage alive now s packageName plugin =
        ((startSpawn now ⟨mapDelete s.processes packageName,
            mapDelete s.processes packageName⟩ packageName plugin).1,
         (startSpawn now ⟨mapDelete s.processes packageName,
            mapDelete s.processes packageName⟩ packageName plugin).2.1,
         Effect.probe proc.pid ::
           Effect.write (mapDelete s.processes packageName) ::
           (startSpawn now ⟨mapDelete s.processes packageName,
              mapDelete s.processes packageName⟩ packageName plugin).2.2) ∧
      (plugin.hasStart = true →
        Effect.startInvoked ∈ (startPackage alive now s packageName plugin).2.2)) := by
  constructor
  · intro halive
    unfold startPackage
    rw [hmem]
    simp [halive]
  · intro hdead
    have heq : startPackage alive now s packageName plugin =
        ((startSpawn now ⟨mapDelete s.processes packageName,
            mapDelete s.processes packageName⟩ packageName plugin).1,
         (startSpawn now ⟨mapDelete s.processes packageName,
            mapDelete s.processes packageName⟩ packageName plugin).2.1,
         Effect.probe proc.pid ::
           Effect.write (mapDelete s.processes packageName) ::
           (startSpawn now ⟨mapDelete s.processes packageName,
              mapDelete s.processes packageName⟩ packageName plugin).2.2) := by
      unfold startPackage
      rw [hmem]
      simp [hdead]
    refine ⟨heq, ?_⟩
    intro hs
    rw [heq]
    simp only [List.mem_cons]
    right; right
    exact startInvoked_mem_startSpawn now
      ⟨mapDelete s.processes packageName, mapDelete s.processes packageName⟩
      packageName plugin hs

/-- C2: when no record for the package name exists, the provider has the
start capability and its start operation resolves to a handle with a
usable pid, `startPackage` returns true, the table afterwards holds
exactly one record for the name — carrying that pid and the insertion
timestamp `now` — and the persisted table equals the in-memory table. -/
theorem startPackage_fresh_success (alive : Nat → Bool) (now : String)
    (s : PMState) (packageName : String) (pid : Nat) (plugin : Plugin)
    (hnone : mapLookup s.processes packageName = none)
    (hcap : plugin.hasStart = true)
    (hres : plugin.startResult = Except.ok (some pid))
    (hpid : pid ≠ 0) :
    (startPackage alive now s packageName plugin).1 = true ∧
    mapLookup (startPackage alive now s packageName plugin).2.1.processes
        packageName = some ⟨packageName, pid, now⟩ ∧
    countKey (startPackage alive now s packageName plugin).2.1.processes
        packageName = 1 ∧
    (startPackage alive now s packageName plugin).2.1.fileState =
      (startPackage alive now s packageName plugin).2.1.processes := by
  have heq : startPackage alive now s packageName plugin =
      (true,
       ⟨mapSet s.processes packageName ⟨packageName, pid, now⟩,
        mapSet s.processes packageName ⟨packageName, pid, now⟩⟩,
       [Effect.startInvoked,
        Effect.write (mapSet s.processes packageName ⟨packageName, pid, now⟩)]) := by
    unfold startPackage
    rw [hnone]
    unfold startSpawn
    rw [hcap, hres]
    simp [hpid]
  rw [heq]
  refine ⟨rfl, mapLookup_mapSet_self _ _ _, ?_, rfl⟩
  rw [mapSet_of_lookup_none s.processes packageName ⟨packageName, pid, now⟩ hnone,
    countKey_append, countKey_eq_zero_of_lookup_none s.processes packageName hnone]
  simp [countKey, List.filter]

/-- C3: whenever the provider lacks the start capability, or its start
operation rejects, or it resolves without a usable pid (`none` or the
falsy pid 0), `startPackage` returns false — the embedding is a total
function, mirroring that every rejection of the provider call is caught
inside `startPackage` and never escapes to the caller. -/
theorem startPackage_failure_returns_false (alive : Nat → Bool)
    (now : String) (s : PMState) (packageName : String) (plugin : Plugin)
    (hfail : plugin.hasStart = false ∨
      (∃ e, plugin.startResult = Except.error e) ∨
      plugin.startResult = Except.ok none ∨
      plugin.startResult = Except.ok (some 0)) :
    (startPackage alive now s packageName plugin).1 = false := by
  unfold startPackage
  cases hm : mapLookup s.processes packageName with
  | none => exact startSpawn_fst_false now s packageName plugin hfail
  | some proc =>
    by_cases halive : alive proc.pid
    · simp [halive]
    · simp only [halive, if_false, Bool.false_eq_true]
      exact startSpawn_fst_false now _ packageName plugin hfail

/-- C4: `cleanup` is idempotent: starting from a state whose persisted
table mirrors the in-memory table, one call leaves both tables empty,
and a second consecutive call returns the very same state with an empty
effect list — no termination signal and no state-file write — so the
persisted table is empty after both calls. -/
theorem cleanup_idempotent (alive : Nat → Bool) (s : PMState)
    (hsync : s.fileState = s.processes) :
    (cleanup alive s).1.processes = [] ∧
    (cleanup alive s).1.fileState = [] ∧
    cleanup alive (cleanup alive s).1 = ((cleanup alive s).1, []) ∧
    (cleanup alive (cleanup alive s).1).1.fileState = [] := by
  by_cases hp : s.processes = []
  · have h1 : cleanup alive s = (s, []) := by
      simp [cleanup, hp]
    have hf : s.fileState = [] := by rw [hsync, hp]
    refine ⟨by rw [h1, hp], by rw [h1]; exact hf, ?_, ?_⟩
    · rw [h1]
      simp [cleanup, hp]
    · rw [h1]
      simpa [cleanup, hp, h1] using hf
  · have hlen : s.processes.length > 0 := List.length_pos.mpr hp
    have h1 : cleanup alive s =
        (⟨[], []⟩,
         s.processes.foldl (fun acc p => acc ++ killEffects alive p.2.pid) []
           ++ [Effect.write []]) := by
      simp [cleanup, hlen]
    have h2 : cleanup alive (⟨[], []⟩ : PMState) = (⟨[], []⟩, []) := by
      simp [cleanup]
    refine ⟨by rw [h1], by rw [h1], ?_, ?_⟩
    · rw [h1]; exact h2
    · rw [h1]; rw [h2]

/-- C5: round-trip of persisted state: the table a fresh supervisor
instance builds by `loadState` from the file content written by
`saveState` is exactly the original table — no record pruned or altered
at load time (the table of a real `Map` has pairwise distinct keys). -/
theorem loadState_saveState_roundtrip (s : PMState)
    (hnodup : (s.processes.map Prod.fst).Nodup) :
    loadState (saveStateFile s) = s.processes := by
  unfold loadState saveStateFile
  have h := foldl_mapSet_fresh s.processes [] hnodup
    (by intro p _; simp [mapLookup])
  simpa using h

/-- C9: `startPackage` is not atomic on failure: on a state holding a
stale record for "x" (pid 42, dead), with a provider lacking the start
capability, the call returns false and yet the purge of the stale record
has been applied to the table and persisted (the final state is empty on
both sides and the purged table was written). -/
theorem startPackage_purge_survives_failure :
    startPackage (fun _ => false) "2024-01-02T03:04:05.000Z"
        ⟨[("x", ⟨"x", 42, "2024-01-01T00:00:00.000Z"⟩)],
         [("x", ⟨"x", 42, "2024-01-01T00:00:00.000Z"⟩)]⟩ "x"
        ⟨false, Except.ok none⟩ =
      (false, ⟨[], []⟩, [Effect.probe 42, Effect.write []]) := by
  rfl

/-! ### Registry helper lemmas -/

theorem validatePluginInterface_iff (i : PluginInterface) :
    validatePluginInterface i = true ↔
      (i.name ≠ "" ∧ i.version ≠ "" ∧
       (i.hasStartFn = true ∨ i.hasRunFn = true ∨ i.hasHealthFn = true)) := by
  unfold validatePluginInterface
  by_cases h1 : i.name = "" <;> by_cases h2 : i.version = "" <;>
    simp [h1, h2, Bool.or_eq_true, or_assoc]

theorem validateTemplate_hasRunnerFile (c : TemplateCandidate)
    (hv : validateTemplate c = true) : c.hasRunnerFile = true := by
  unfold validateTemplate at hv
  by_cases hpj : c.hasPackageJson = false
  · rw [if_pos hpj] at hv
    exact absurd hv (by simp)
  · rwa [if_neg hpj] at hv

theorem loadTemplate_hasRunner_preserved
    (m : List (String × TemplateInfo)) (pluginName : String)
    (c : TemplateCandidate)
    (hm : ∀ e ∈ m, e.2.hasRunner = true) :
    ∀ e ∈ loadTemplate m pluginName c, e.2.hasRunner = true := by
  intro e he
  unfold loadTemplate at he
  by_cases hv : validateTemplate c = false
  · rw [if_pos hv] at he
    exact hm e he
  · rw [if_neg hv] at he
    rcases mem_mapSet _ _ _ e he with h | h
    · exact hm e h
    · have hr : c.hasRunnerFile = true :=
        validateTemplate_hasRunnerFile c (by simpa using hv)
      rw [h]
      exact hr

theorem foldl_loadTemplate_hasRunner (cs : List TemplateCandidate) :
    ∀ (m : List (String × TemplateInfo)) (pluginName : String),
      (∀ e ∈ m, e.2.hasRunner = true) →
      ∀ e ∈ cs.foldl (fun acc c => loadTemplate acc pluginName c) m,
        e.2.hasRunner = true := by
  induction cs with
  | nil => intro m _ hm e he; exact hm e he
  | cons c t ih =>
    intro m pluginName hm e he
    exact ih (loadTemplate m pluginName c) pluginName
      (loadTemplate_hasRunner_preserved m pluginName c hm) e he

theorem scanPluginTemplates_hasRunner
    (m : List (String × TemplateInfo)) (pluginName : String)
    (d : TemplatesDir)
    (hm : ∀ e ∈ m, e.2.hasRunner = true) :
    ∀ e ∈ scanPluginTemplates m pluginName d, e.2.hasRunner = true := by
  unfold scanPluginTemplates
  by_cases h1 : d.dirExists = false
  · simpa [h1] using hm
  · by_cases h2 : d.readdirOk = false
    · simpa [h1, h2] using hm
    · simpa [h1, h2] using
        foldl_loadTemplate_hasRunner d.candidates m pluginName hm

theorem foldl_scanPluginTemplates_hasRunner
    (ps : List (String × TemplatesDir)) :
    ∀ (m : List (String × TemplateInfo)),
      (∀ e ∈ m, e.2.hasRunner = true) →
      ∀ e ∈ ps.foldl (fun acc p => scanPluginTemplates acc p.1 p.2) m,
        e.2.hasRunner = true := by
  induction ps with
  | nil => intro m hm e he; exact hm e he
  | cons p t ih =>
    intro m hm e he
    exact ih (scanPluginTemplates m p.1 p.2)
      (scanPluginTemplates_hasRunner m p.1 p.2 hm) e he

/-! ### Claim theorems for the Plugin Registry -/

/-- C6: a discovery candidate whose entry point exists and whose module
loads is cataloged (under its namespace-stripped logical name) exactly
when its interface declares a non-empty name, a non-empty version, and
at least one of the start/run/health operations as a function; a
candidate missing name or version, or declaring no capability, is
excluded. -/
theorem loadPlugin_catalogs_iff_valid (dirName : String)
    (iface : PluginInterface) :
    (mapLookup
        (loadPlugin [] ⟨dirName, true, Except.ok iface⟩)
        (replaceFirst dirName "@zypin/")).isSome = true ↔
      (iface.name ≠ "" ∧ iface.version ≠ "" ∧
       (iface.hasStartFn = true ∨ iface.hasRunFn = true ∨
        iface.hasHealthFn = true)) := by
  rw [← validatePluginInterface_iff]
  unfold loadPlugin
  by_cases hv : validatePluginInterface iface = false
  · simp [hv, mapLookup]
  · have hv' : validatePluginInterface iface = true := by simpa using hv
    simp [hv', mapLookup_mapSet_self]

/-- C7: discovery and template scanning are total functions of their
inputs (no exception reaches the caller), and a failing candidate is
skipped while the remaining candidates are still processed: folding the
loader over a candidate list beginning with a failing candidate yields
the same catalog as folding over the tail alone, both for plugin
candidates (missing entry point, load error, or failed validation) and
for template candidates (failed validation). -/
theorem discovery_skips_failed_candidates
    (c : PluginCandidate) (t : TemplateCandidate) (pluginName : String)
    (mp : List (String × PluginInfo)) (cs : List PluginCandidate)
    (mt : List (String × TemplateInfo)) (ts : List TemplateCandidate)
    (hc : c.hasIndex = false ∨ (∃ e, c.loadResult = Except.error e) ∨
          (∃ i, c.loadResult = Except.ok i ∧
            validatePluginInterface i = false))
    (ht : validateTemplate t = false) :
    (c :: cs).foldl loadPlugin mp = cs.foldl loadPlugin mp ∧
    (t :: ts).foldl (fun acc tc => loadTemplate acc pluginName tc) mt =
      ts.foldl (fun acc tc => loadTemplate acc pluginName tc) mt := by
  have hcskip : loadPlugin mp c = mp := by
    unfold loadPlugin
    rcases hc with h | ⟨e, h⟩ | ⟨i, h, hval⟩
    · simp [h]
    · by_cases hi : c.hasIndex = false
      · simp [hi]
      · simp [hi, h]
    · by_cases hi : c.hasIndex = false
      · simp [hi]
      · simp [hi, h, hval]
  have htskip : loadTemplate mt pluginName t = mt := by
    unfold loadTemplate
    simp [ht]
  constructor
  · simp [List.foldl_cons, hcskip]
  · simp [List.foldl_cons, htskip]

/-- C10: invariant of the template catalog: every record produced by a
full template scan has `hasRunner = true`, because `validateTemplate`
requires the runner file to exist before a record is created and the
record's flag repeats the same existence check. -/
theorem scanTemplates_hasRunner_invariant
    (plugins : List (String × TemplatesDir)) (entry : String × TemplateInfo)
    (hmem : entry ∈ scanTemplates plugins) :
    entry.2.hasRunner = true := by
  unfold scanTemplates at hmem
  exact foldl_scanPluginTemplates_hasRunner plugins [] (by simp) entry hmem

/-! ### Claim theorems for the Status Service probe -/

/-- C8 counterexample: against the claim that any received response
yields `running = true`, a response with status code 500 yields
`isRunning = false` — the code surfaces `response.ok`, which is false
outside the 2xx range. -/
theorem serverStatus_response_not_always_running :
    ¬ ((serverStatus "http://localhost:8421"
        (Except.ok ⟨500⟩)).isRunning = true) := by
  decide

/-- C8 (amended): `status(url)` maps a received response to
`isRunning = response.ok` (true exactly when the status code is in the
2xx range) with the status code surfaced, and maps any network-level
failure to `isRunning = false` with the error message captured; the
probe is a total function of the fetch outcome, so no exception reaches
the caller. -/
theorem serverStatus_spec (url : String) (resp : HttpResponse) (e : String) :
    (serverStatus url (Except.ok resp)).isRunning = respOk resp ∧
    (serverStatus url (Except.ok resp)).status = some resp.status ∧
    (serverStatus url (Except.error e)).isRunning = false ∧
    (serverStatus url (Except.error e)).error = some e :=
  ⟨rfl, rfl, rfl, rfl⟩

/-! ### Witnesses: concrete instantiations of the hypothetical theorems -/

/-- Witness for C1 at a concrete state: a record for "x" with a live
pid 42 makes `startPackage` return false. -/
theorem startPackage_existing_record_witness :
    (startPackage (fun pid => decide (pid = 42)) "2024-01-02T03:04:05.000Z"
        ⟨[("x", ⟨"x", 42, "2024-01-01T00:00:00.000Z"⟩)],
         [("x", ⟨"x", 42, "2024-01-01T00:00:00.000Z"⟩)]⟩ "x"
        ⟨true, Except.ok (some 7)⟩).1 = false ∧
    Effect.startInvoked ∉
      (startPackage (fun pid => decide (pid = 42)) "2024-01-02T03:04:05.000Z"
        ⟨[("x", ⟨"x", 42, "2024-01-01T00:00:00.000Z"⟩)],
         [("x", ⟨"x", 42, "2024-01-01T00:00:00.000Z"⟩)]⟩ "x"
        ⟨true, Except.ok (some 7)⟩).2.2 :=
  (startPackage_existing_record (fun pid => decide (pid = 42))
    "2024-01-02T03:04:05.000Z"
    ⟨[("x", ⟨"x", 42, "2024-01-01T00:00:00.000Z"⟩)],
     [("x", ⟨"x", 42, "2024-01-01T00:00:00.000Z"⟩)]⟩ "x"
    ⟨true, Except.ok (some 7)⟩ ⟨"x", 42, "2024-01-01T00:00:00.000Z"⟩
    (by decide)).1 (by decide)

/-- Witness for C2 at a concrete state: a fresh start of "x" whose
provider resolves with pid 7 returns true and records pid 7 with the
insertion timestamp. -/
theorem startPackage_fresh_success_witness :
    (startPackage (fun _ => false) "2024-01-02T03:04:05.000Z" ⟨[], []⟩ "x"
        ⟨true, Except.ok (some 7)⟩).1 = true ∧
    mapLookup (startPackage (fun _ => false) "2024-01-02T03:04:05.000Z"
        ⟨[], []⟩ "x" ⟨true, Except.ok (some 7)⟩).2.1.processes "x" =
      some ⟨"x", 7, "2024-01-02T03:04:05.000Z"⟩ :=
  ⟨(startPackage_fresh_success (fun _ => false) "2024-01-02T03:04:05.000Z"
      ⟨[], []⟩ "x" 7 ⟨true, Except.ok (some 7)⟩ rfl rfl rfl
      (by decide)).1,
   (startPackage_fresh_success (fun _ => false) "2024-01-02T03:04:05.000Z"
      ⟨[], []⟩ "x" 7 ⟨true, Except.ok (some 7)⟩ rfl rfl rfl
      (by decide)).2.1⟩

/-- Witness for C3 at a concrete state: a provider without the start
capability makes `startPackage` return false. -/
theorem startPackage_failure_returns_false_witness :
    (startPackage (fun _ => false) "2024-01-02T03:04:05.000Z" ⟨[], []⟩ "x"
        ⟨false, Except.ok none⟩).1 = false :=
  startPackage_failure_returns_false (fun _ => false)
    "2024-01-02T03:04:05.000Z" ⟨[], []⟩ "x" ⟨false, Except.ok none⟩
    (Or.inl rfl)

/-- Witness for C4 at a concrete state with one tracked process: the
first `cleanup` empties both tables and the second is a no-op with no
effects. -/
theorem cleanup_idempotent_witness :
    (cleanup (fun _ => true)
        ⟨[("x", ⟨"x", 42, "2024-01-01T00:00:00.000Z"⟩)],
         [("x", ⟨"x", 42, "2024-01-01T00:00:00.000Z"⟩)]⟩).1.processes = [] ∧
    cleanup (fun _ => true)
        (cleanup (fun _ => true)
          ⟨[("x", ⟨"x", 42, "2024-01-01T00:00:00.000Z"⟩)],
           [("x", ⟨"x", 42, "2024-01-01T00:00:00.000Z"⟩)]⟩).1 =
      ((cleanup (fun _ => true)
          ⟨[("x", ⟨"x", 42, "2024-01-01T00:00:00.000Z"⟩)],
           [("x", ⟨"x", 42, "2024-01-01T00:00:00.000Z"⟩)]⟩).1, []) :=
  ⟨(cleanup_idempotent (fun _ => true)
      ⟨[("x", ⟨"x", 42, "2024-01-01T00:00:00.000Z"⟩)],
       [("x", ⟨"x", 42, "2024-01-01T00:00:00.000Z"⟩)]⟩ rfl).1,
   (cleanup_idempotent (fun _ => true)
      ⟨[("x", ⟨"x", 42, "2024-01-01T00:00:00.000Z"⟩)],
       [("x", ⟨"x", 42, "2024-01-01T00:00:00.000Z"⟩)]⟩ rfl).2.2.1⟩

/-- Witness for C5 at a concrete two-record table: load of the saved
state reproduces the table exactly. -/
theorem loadState_saveState_roundtrip_witness :
    loadState (saveStateFile
        ⟨[("a", ⟨"a", 1, "2024-01-01T00:00:00.000Z"⟩),
          ("b", ⟨"b", 2, "2024-01-01T00:00:01.000Z"⟩)], []⟩) =
      [("a", ⟨"a", 1, "2024-01-01T00:00:00.000Z"⟩),
       ("b", ⟨"b", 2, "2024-01-01T00:00:01.000Z"⟩)] :=
  loadState_saveState_roundtrip
    ⟨[("a", ⟨"a", 1, "2024-01-01T00:00:00.000Z"⟩),
      ("b", ⟨"b", 2, "2024-01-01T00:00:01.000Z"⟩)], []⟩ (by decide)

/-- Witness for C7 at concrete candidates: a plugin candidate without an
entry point and a template candidate without a runner file are skipped,
and the respective good candidates after them are still processed. -/
theorem discovery_skips_failed_candidates_witness :
    ([(⟨"@zypin/bad", false, Except.error "boom"⟩ : PluginCandidate),
      ⟨"@zypin/selenium", true,
        Except.ok ⟨"selenium", "1.0.0", true, true, true, []⟩⟩].foldl
          loadPlugin [] =
      [(⟨"@zypin/selenium", true,
        Except.ok ⟨"selenium", "1.0.0", true, true, true, []⟩⟩ :
          PluginCandidate)].foldl loadPlugin []) ∧
    ([(⟨"broken", true, Except.ok ⟨none⟩, false⟩ : TemplateCandidate),
      ⟨"basic", true, Except.ok ⟨some "d"⟩, true⟩].foldl
          (fun acc tc => loadTemplate acc "selenium" tc) [] =
      [(⟨"basic", true, Except.ok ⟨some "d"⟩, true⟩ :
          TemplateCandidate)].foldl
          (fun acc tc => loadTemplate acc "selenium" tc) []) :=
  discovery_skips_failed_candidates
    ⟨"@zypin/bad", false, Except.error "boom"⟩
    ⟨"broken", true, Except.ok ⟨none⟩, false⟩ "selenium" []
    [⟨"@zypin/selenium", true,
      Except.ok ⟨"selenium", "1.0.0", true, true, true, []⟩⟩] []
    [⟨"basic", true, Except.ok ⟨some "d"⟩, true⟩]
    (Or.inl rfl) rfl

/-- Witness for C10 at a concrete scan producing one template record:
the record is in the catalog and its `hasRunner` flag is true. -/
theorem scanTemplates_hasRunner_invariant_witness :
    ("selenium/basic",
      (⟨"basic", "selenium", "selenium/basic", ⟨some "d"⟩, true, "d"⟩ :
        TemplateInfo)) ∈
      scanTemplates
        [("selenium",
          ⟨true, true, [⟨"basic", true, Except.ok ⟨some "d"⟩, true⟩]⟩)] ∧
    (⟨"basic", "selenium", "selenium/basic", ⟨some "d"⟩, true, "d"⟩ :
      TemplateInfo).hasRunner = true :=
  ⟨by decide,
   scanTemplates_hasRunner_invariant
     [("selenium",
       ⟨true, true, [⟨"basic", true, Except.ok ⟨some "d"⟩, true⟩]⟩)]
     ("selenium/basic",
       ⟨"basic", "selenium", "selenium/basic", ⟨some "d"⟩, true, "d"⟩)
     (by decide)⟩

end Zypin
